import Mathlib

/-!
Verification of the crop-box geometry of the picture-cut application.

The interactive crop subsystem lives in `src/composables/useCropBoxDesktop.ts`
(clamping, drag/resize gestures, image-fit adjustment), the Pinia store in an
unnamed store module (`CropBox` record, `updateCropBox`), and two further
crop-box reset sites in the upload composable and in `PWAPrompt.vue`.

JavaScript numbers are modelled as rationals (`ℚ`): every claim under study is
about exact order/clamping algebra, not float rounding.  Where a claim is about
NaN behaviour, a second model `JNum := Option ℚ` is used, with `none` playing
the role of NaN and the JS `Math.max` / `Math.min` / subtraction NaN
propagation made explicit.
-/

namespace PicCut

/-- Crop rectangle in display space, from the store's `CropBox` interface:
`{ x, y, width, height }`, all JS numbers (modelled as `ℚ`). -/
structure CropBox where
  x : ℚ
  y : ℚ
  width : ℚ
  height : ℚ
deriving DecidableEq, Repr

/-- Minimum crop-box side, `const minSize = 50` in `useCropBoxDesktop.ts`. -/
def minSize : ℚ := 50

/-- Embedding of `constrainCropBox` (useCropBoxDesktop.ts lines 27–50).
The container size, read by `getContainerSize()` at call time, is passed as an
explicit argument.  Source shape preserved: width/height are clamped to
`[minSize, containerSize]` first, then the maximal position is computed and
floored at 0, then x/y are clamped into `[0, maxX]` / `[0, maxY]`. -/
def constrainCropBox (containerSize : ℚ) (cropBox : CropBox) : CropBox :=
  let constrainedWidth := max minSize (min containerSize cropBox.width)
  let constrainedHeight := max minSize (min containerSize cropBox.height)
  let maxX := max 0 (containerSize - constrainedWidth)
  let maxY := max 0 (containerSize - constrainedHeight)
  let constrainedX := max 0 (min maxX cropBox.x)
  let constrainedY := max 0 (min maxY cropBox.y)
  { x := constrainedX, y := constrainedY,
    width := constrainedWidth, height := constrainedHeight }

example : constrainCropBox 400 ⟨-10, 500, 600, 20⟩ = ⟨0, 350, 400, 50⟩ := by
  norm_num [constrainCropBox, minSize, max_def, min_def]

example : constrainCropBox 30 ⟨0, 0, 100, 100⟩ = ⟨0, 0, 50, 50⟩ := by
  norm_num [constrainCropBox, minSize, max_def, min_def]

/-- Default box installed by the degenerate-state guard shared by `startDrag`
(lines 67–83) and `startResize` (lines 172–187): a centered square of side
`max(minSize, floor(containerSize * 0.3))`, offset
`max(0, floor((containerSize - defaultSize) / 2))` on both axes. -/
def guardResetBox (containerSize : ℚ) : CropBox :=
  let defaultSize := max minSize ((⌊containerSize * (3 / 10)⌋ : ℤ) : ℚ)
  let defaultOffset := max 0 ((⌊(containerSize - defaultSize) / 2⌋ : ℤ) : ℚ)
  { x := defaultOffset, y := defaultOffset,
    width := defaultSize, height := defaultSize }

/-- Resize-handle identifiers assigned by the corner handles of the desktop
crop UI (the `handle` string argument of `startResize`). -/
inductive Handle where
  | nw
  | ne
  | sw
  | se
deriving DecidableEq, Repr

/-- Gesture-relevant reactive state of `useCropBoxDesktop`: the store's crop
box together with the composable's `isDragging` / `isResizing` flags, the
active `resizeHandle` and the `initialCropBox` snapshot. -/
structure GestureState where
  cropBox : CropBox
  isDragging : Bool
  isResizing : Bool
  resizeHandle : Option Handle
  initialCropBox : CropBox
deriving DecidableEq, Repr

/-- State effect of `startDrag` (useCropBoxDesktop.ts lines 55–116) on the
gesture state.  If the current box has non-positive width or height, the box
is reset via the guard and the function returns early — `isDragging` is never
set.  Otherwise `isDragging` is set; pointer anchor capture and DOM listener
registration have no effect on this state. -/
def startDrag (containerSize : ℚ) (s : GestureState) : GestureState :=
  if s.cropBox.width ≤ 0 ∨ s.cropBox.height ≤ 0 then
    { s with cropBox := guardResetBox containerSize }
  else
    { s with isDragging := true }

/-- State effect of `startResize` (useCropBoxDesktop.ts lines 168–218).  The
same degenerate-box guard resets the box, but there is no early return: the
code falls through, sets `isResizing := true`, records the handle and
snapshots the (possibly just-reset) store box into `initialCropBox`. -/
def startResize (containerSize : ℚ) (handle : Handle) (s : GestureState) :
    GestureState :=
  let s1 :=
    if s.cropBox.width ≤ 0 ∨ s.cropBox.height ≤ 0 then
      { s with cropBox := guardResetBox containerSize }
    else
      s
  { s1 with isResizing := true, resizeHandle := some handle,
            initialCropBox := s1.cropBox }

/-- Box committed by one `handleDrag` pointer move (lines 121–145): the new
position is `pointer - dragStartPos` componentwise, width/height are spread
from the current store box, and the result goes through `constrainCropBox`.
`anchor` is the `dragStartPos` captured at gesture start, `pointer` the
container-relative pointer position of this move. -/
def handleDrag (containerSize : ℚ) (anchor pointer : ℚ × ℚ)
    (cropBox : CropBox) : CropBox :=
  constrainCropBox containerSize
    { cropBox with x := pointer.1 - anchor.1, y := pointer.2 - anchor.2 }

/-- Candidate box computed by `handleResize` (lines 244–276) before it is
submitted to `constrainCropBox`: the `initialCropBox` snapshot transformed
per handle by the pointer delta, then width and height independently raised
to `minSize` when below it (the two trailing `if` statements), with x and y
left untouched by that floor. -/
def resizeCandidate (handle : Handle) (deltaX deltaY : ℚ)
    (initialBox : CropBox) : CropBox :=
  let b :=
    match handle with
    | .nw => { initialBox with
                x := initialBox.x + deltaX, y := initialBox.y + deltaY,
                width := initialBox.width - deltaX,
                height := initialBox.height - deltaY }
    | .ne => { initialBox with
                y := initialBox.y + deltaY,
                width := initialBox.width + deltaX,
                height := initialBox.height - deltaY }
    | .sw => { initialBox with
                x := initialBox.x + deltaX,
                width := initialBox.width - deltaX,
                height := initialBox.height + deltaY }
    | .se => { initialBox with
                width := initialBox.width + deltaX,
                height := initialBox.height + deltaY }
  let b1 := if b.width < minSize then { b with width := minSize } else b
  if b1.height < minSize then { b1 with height := minSize } else b1

/-- Box committed by one `handleResize` pointer move (lines 279–282): the
candidate, constrained into the container. -/
def handleResize (containerSize : ℚ) (handle : Handle) (deltaX deltaY : ℚ)
    (initialBox : CropBox) : CropBox :=
  constrainCropBox containerSize (resizeCandidate handle deltaX deltaY initialBox)

/-- Letterbox mapping of an image into the square container.  This exact
computation appears verbatim in `adjustCropBoxToImage` (useCropBoxDesktop.ts
lines 326–344), in `handleFileUpload` of the upload composable and in
`setCropBoxToFullImage` of `PWAPrompt.vue`; the spec names it
`computeDisplayMapping`. -/
structure DisplayMapping where
  displayWidth : ℚ
  displayHeight : ℚ
  offsetX : ℚ
  offsetY : ℚ
deriving DecidableEq, Repr

/-- Display mapping as computed in the source: `imageAspectRatio = w / h`;
when the ratio exceeds 1 the width fills the container and the height is
letterboxed and centered, otherwise the height fills the container and the
width is pillarboxed and centered. -/
def computeDisplayMapping (containerSize imageWidth imageHeight : ℚ) :
    DisplayMapping :=
  let imageAspectRatio := imageWidth / imageHeight
  if imageAspectRatio > 1 then
    { displayWidth := containerSize,
      displayHeight := containerSize / imageAspectRatio,
      offsetX := 0,
      offsetY := (containerSize - containerSize / imageAspectRatio) / 2 }
  else
    { displayWidth := containerSize * imageAspectRatio,
      displayHeight := containerSize,
      offsetX := (containerSize - containerSize * imageAspectRatio) / 2,
      offsetY := 0 }

/-- Crop box committed by `adjustCropBoxToImage` (useCropBoxDesktop.ts lines
323–359) for an image of the given natural size: margin 2, with x/y floored
at 0 and width/height floored at `minSize`. -/
def adjustCropBoxToImage (containerSize imageWidth imageHeight : ℚ) : CropBox :=
  let m := computeDisplayMapping containerSize imageWidth imageHeight
  let margin : ℚ := 2
  { x := max 0 (m.offsetX + margin),
    y := max 0 (m.offsetY + margin),
    width := max minSize (m.displayWidth - margin * 2),
    height := max minSize (m.displayHeight - margin * 2) }

/-- Crop box committed at the end of `handleFileUpload` in the upload
composable (after the new image's dimensions are known): margin 3, no
flooring of any field. -/
def uploadResetCropBox (containerSize imageWidth imageHeight : ℚ) : CropBox :=
  let m := computeDisplayMapping containerSize imageWidth imageHeight
  let margin : ℚ := 3
  { x := m.offsetX + margin,
    y := m.offsetY + margin,
    width := m.displayWidth - margin * 2,
    height := m.displayHeight - margin * 2 }

/-- Crop box committed by `setCropBoxToFullImage` in `PWAPrompt.vue` after a
crop operation completes and the cropped image's dimensions are known:
margin 2, no flooring of any field. -/
def setCropBoxToFullImage (containerSize imageWidth imageHeight : ℚ) : CropBox :=
  let m := computeDisplayMapping containerSize imageWidth imageHeight
  let margin : ℚ := 2
  { x := m.offsetX + margin,
    y := m.offsetY + margin,
    width := m.displayWidth - margin * 2,
    height := m.displayHeight - margin * 2 }

/-- JavaScript number with NaN: `none` is NaN, `some q` a finite value. -/
def JNum : Type := Option ℚ
deriving DecidableEq, Repr

/-- Embedding of a finite value as a JS number. -/
def JNum.ofRat (q : ℚ) : JNum := some q

/-- JS `Math.max`: returns NaN whenever either argument is NaN. -/
def jmax : JNum → JNum → JNum
  | some a, some b => some (max a b)
  | _, _ => none

/-- JS `Math.min`: returns NaN whenever either argument is NaN. -/
def jmin : JNum → JNum → JNum
  | some a, some b => some (min a b)
  | _, _ => none

/-- JS subtraction: NaN propagates through `-`. -/
def jsub : JNum → JNum → JNum
  | some a, some b => some (a - b)
  | _, _ => none

/-- Crop rectangle whose fields are JS numbers that may be NaN. -/
structure JSCropBox where
  x : JNum
  y : JNum
  width : JNum
  height : JNum
deriving DecidableEq, Repr

/-- Embedding of a NaN-free box into the JS-number model. -/
def JSCropBox.ofCropBox (b : CropBox) : JSCropBox :=
  ⟨some b.x, some b.y, some b.width, some b.height⟩

/-- The body of `constrainCropBox` replayed over JS numbers, `Math.max`,
`Math.min` and `-` carrying NaN exactly as JS does.  The container size comes
from `getBoundingClientRect` (or the literal 400) and is never NaN, so it is
a plain rational. -/
def constrainCropBoxJS (containerSize : ℚ) (cropBox : JSCropBox) : JSCropBox :=
  let cs : JNum := some containerSize
  let ms : JNum := some minSize
  let constrainedWidth := jmax ms (jmin cs cropBox.width)
  let constrainedHeight := jmax ms (jmin cs cropBox.height)
  let maxX := jmax (some 0) (jsub cs constrainedWidth)
  let maxY := jmax (some 0) (jsub cs constrainedHeight)
  let constrainedX := jmax (some 0) (jmin maxX cropBox.x)
  let constrainedY := jmax (some 0) (jmin maxY cropBox.y)
  { x := constrainedX, y := constrainedY,
    width := constrainedWidth, height := constrainedHeight }

/-- Partial crop-box update, the `Partial<CropBox>` argument of the store
action `updateCropBox`: each field is either absent or a JS number (possibly
NaN — nothing in the store restricts it). -/
structure CropBoxUpdate where
  x : Option JNum
  y : Option JNum
  width : Option JNum
  height : Option JNum
deriving DecidableEq, Repr

/-- Embedding of the store action
`updateCropBox (box) { cropBox.value = { ...cropBox.value, ...box } }`:
object spread keeps every absent field and overwrites every present field
verbatim. -/
def updateCropBox (current : JSCropBox) (box : CropBoxUpdate) : JSCropBox :=
  { x := box.x.getD current.x,
    y := box.y.getD current.y,
    width := box.width.getD current.width,
    height := box.height.getD current.height }

/-- Resize candidate as worded by the spec: the snapshot transformed per
handle by the pointer delta, with width and height then independently floored
at `MIN_SIZE` (a `max` with 50) and x, y not adjusted by the floor. -/
def resizeCandidateSpec (handle : Handle) (deltaX deltaY : ℚ)
    (initialBox : CropBox) : CropBox :=
  let b : CropBox :=
    match handle with
    | .nw => ⟨initialBox.x + deltaX, initialBox.y + deltaY,
              initialBox.width - deltaX, initialBox.height - deltaY⟩
    | .ne => ⟨initialBox.x, initialBox.y + deltaY,
              initialBox.width + deltaX, initialBox.height - deltaY⟩
    | .sw => ⟨initialBox.x + deltaX, initialBox.y,
              initialBox.width - deltaX, initialBox.height + deltaY⟩
    | .se => ⟨initialBox.x, initialBox.y,
              initialBox.width + deltaX, initialBox.height + deltaY⟩
  { b with width := max minSize b.width, height := max minSize b.height }

/-- Crop-box reset as worded by the spec and by claim C6: the displayed image
rectangle shrunk by a fixed margin on each side, with no flooring. -/
def cropResetSpec (m : DisplayMapping) (margin : ℚ) : CropBox :=
  { x := m.offsetX + margin,
    y := m.offsetY + margin,
    width := m.displayWidth - margin * 2,
    height := m.displayHeight - margin * 2 }

/-! Helper lemmas shared by several claims. -/

/-- Closed form of `constrainCropBox` with the let bindings expanded. -/
theorem constrainCropBox_eq (containerSize : ℚ) (b : CropBox) :
    constrainCropBox containerSize b =
      { x := max 0 (min (max 0
               (containerSize - max minSize (min containerSize b.width))) b.x),
        y := max 0 (min (max 0
               (containerSize - max minSize (min containerSize b.height))) b.y),
        width := max minSize (min containerSize b.width),
        height := max minSize (min containerSize b.height) } := rfl

/-- The size clamp `max minSize (min containerSize ·)` is idempotent, for any
container size (also below `minSize`). -/
theorem size_clamp_idem (cs w : ℚ) :
    max minSize (min cs (max minSize (min cs w))) = max minSize (min cs w) := by
  rcases le_total cs minSize with h | h
  · have h1 : min cs w ≤ minSize := le_trans (min_le_left _ _) h
    rw [max_eq_left h1]
    exact max_eq_left (min_le_right _ _)
  · have hle : max minSize (min cs w) ≤ cs := max_le h (min_le_left _ _)
    rw [min_eq_right hle]
    exact max_eq_right (le_max_left _ _)

/-- The position clamp `max 0 (min m ·)` is idempotent when `0 ≤ m`. -/
theorem pos_clamp_idem (m x : ℚ) (hm : 0 ≤ m) :
    max 0 (min m (max 0 (min m x))) = max 0 (min m x) := by
  have h1 : max 0 (min m x) ≤ m := max_le hm (min_le_left _ _)
  rw [min_eq_right h1]
  exact max_eq_right (le_max_left _ _)

/-! Claims. -/

/-- C1 counterexample: the claim quantifies over any container size read at
call time, but with a container of side 30 (below `minSize = 50`) the box
`{x:0, y:0, width:100, height:100}` is clamped to width 50, and
`x + width = 50 > 30` escapes the container. -/
theorem C1_small_container_escapes :
    ¬ ((constrainCropBox 30 ⟨0, 0, 100, 100⟩).x +
        (constrainCropBox 30 ⟨0, 0, 100, 100⟩).width ≤ 30) := by
  norm_num [constrainCropBox, minSize, max_def, min_def]

/-- C1 (amended): whenever the container side read at call time is at least
`minSize`, the box returned by `constrainCropBox` satisfies `0 ≤ x`, `0 ≤ y`,
`x + width ≤ containerSize`, `y + height ≤ containerSize`,
`width ≥ minSize` and `height ≥ minSize`. -/
theorem C1_constrain_containment (cs : ℚ) (b : CropBox) (hcs : minSize ≤ cs) :
    0 ≤ (constrainCropBox cs b).x ∧ 0 ≤ (constrainCropBox cs b).y ∧
    (constrainCropBox cs b).x + (constrainCropBox cs b).width ≤ cs ∧
    (constrainCropBox cs b).y + (constrainCropBox cs b).height ≤ cs ∧
    minSize ≤ (constrainCropBox cs b).width ∧
    minSize ≤ (constrainCropBox cs b).height := by
  rw [constrainCropBox_eq]
  have hw : max minSize (min cs b.width) ≤ cs := max_le hcs (min_le_left _ _)
  have hh : max minSize (min cs b.height) ≤ cs := max_le hcs (min_le_left _ _)
  have hwx : max 0 (cs - max minSize (min cs b.width)) =
      cs - max minSize (min cs b.width) := max_eq_right (by linarith)
  have hhy : max 0 (cs - max minSize (min cs b.height)) =
      cs - max minSize (min cs b.height) := max_eq_right (by linarith)
  refine ⟨le_max_left _ _, le_max_left _ _, ?_, ?_, le_max_left _ _, le_max_left _ _⟩
  · have hx : max 0 (min (max 0 (cs - max minSize (min cs b.width))) b.x) ≤
        cs - max minSize (min cs b.width) := by
      rw [hwx]
      exact max_le (by linarith) (min_le_left _ _)
    linarith
  · have hy : max 0 (min (max 0 (cs - max minSize (min cs b.height))) b.y) ≤
        cs - max minSize (min cs b.height) := by
      rw [hhy]
      exact max_le (by linarith) (min_le_left _ _)
    linarith

/-- C1 witness: the amended containment theorem instantiated at container 400
and box `{x:-10, y:500, width:600, height:20}`. -/
theorem C1_constrain_containment_witness :
    minSize ≤ (400 : ℚ) ∧
    (0 ≤ (constrainCropBox 400 ⟨-10, 500, 600, 20⟩).x ∧
     0 ≤ (constrainCropBox 400 ⟨-10, 500, 600, 20⟩).y ∧
     (constrainCropBox 400 ⟨-10, 500, 600, 20⟩).x +
       (constrainCropBox 400 ⟨-10, 500, 600, 20⟩).width ≤ 400 ∧
     (constrainCropBox 400 ⟨-10, 500, 600, 20⟩).y +
       (constrainCropBox 400 ⟨-10, 500, 600, 20⟩).height ≤ 400 ∧
     minSize ≤ (constrainCropBox 400 ⟨-10, 500, 600, 20⟩).width ∧
     minSize ≤ (constrainCropBox 400 ⟨-10, 500, 600, 20⟩).height) :=
  ⟨by norm_num [minSize],
   C1_constrain_containment 400 ⟨-10, 500, 600, 20⟩ (by norm_num [minSize])⟩

/-- C8: `constrainCropBox` is idempotent for every container size and every
input box: constraining twice equals constraining once. -/
theorem C8_constrain_idempotent (cs : ℚ) (b : CropBox) :
    constrainCropBox cs (constrainCropBox cs b) = constrainCropBox cs b := by
  simp only [constrainCropBox_eq]
  rw [size_clamp_idem cs b.width, size_clamp_idem cs b.height,
      pos_clamp_idem _ _ (le_max_left _ _), pos_clamp_idem _ _ (le_max_left _ _)]

/-- C2: for every handle, pointer delta and snapshot box, the candidate box
that `handleResize` submits to `constrainCropBox` is exactly the snapshot
transformed per handle with width and height then independently floored at
`minSize` and x, y untouched by the floor (`resizeCandidateSpec`, worded from
the spec), and the committed box is that candidate constrained. -/
theorem C2_resize_candidate (cs : ℚ) (handle : Handle) (dx dy : ℚ)
    (b : CropBox) :
    resizeCandidate handle dx dy b = resizeCandidateSpec handle dx dy b ∧
    handleResize cs handle dx dy b =
      constrainCropBox cs (resizeCandidateSpec handle dx dy b) := by
  have h : resizeCandidate handle dx dy b = resizeCandidateSpec handle dx dy b := by
    cases handle <;>
      simp only [resizeCandidate, resizeCandidateSpec] <;>
      split_ifs with h1 h2 <;>
      simp_all [CropBox.mk.injEq, max_eq_left, max_eq_right, le_of_lt,
        not_lt, max_eq_right]
  exact ⟨h, by rw [handleResize, h]⟩

/-- C3: for positive container size and positive image dimensions, the
display mapping fits in the container (`displayWidth ≤ containerSize`,
`displayHeight ≤ containerSize`), fills it on at least one axis, and fills it
on both axes when the image is exactly square. -/
theorem C3_display_mapping_fits (cs w h : ℚ)
    (hcs : 0 < cs) (hw : 0 < w) (hh : 0 < h) :
    (computeDisplayMapping cs w h).displayWidth ≤ cs ∧
    (computeDisplayMapping cs w h).displayHeight ≤ cs ∧
    ((computeDisplayMapping cs w h).displayWidth = cs ∨
     (computeDisplayMapping cs w h).displayHeight = cs) ∧
    (w = h → (computeDisplayMapping cs w h).displayWidth = cs ∧
             (computeDisplayMapping cs w h).displayHeight = cs) := by
  simp only [computeDisplayMapping]
  split_ifs with hr
  · refine ⟨le_refl cs, div_le_self hcs.le hr.le, Or.inl rfl, ?_⟩
    intro hwh
    rw [hwh, div_self (ne_of_gt hh)] at hr
    exact absurd hr (lt_irrefl 1)
  · have hr1 : w / h ≤ 1 := not_lt.mp hr
    have hle : cs * (w / h) ≤ cs := by
      calc cs * (w / h) ≤ cs * 1 := mul_le_mul_of_nonneg_left hr1 hcs.le
        _ = cs := mul_one cs
    refine ⟨hle, le_refl cs, Or.inr rfl, ?_⟩
    intro hwh
    rw [hwh, div_self (ne_of_gt hh), mul_one]
    exact ⟨rfl, rfl⟩

/-- C3 witness: the mapping theorem instantiated at container 400 and a
square 100 × 100 image. -/
theorem C3_display_mapping_fits_witness :
    (0 : ℚ) < 400 ∧ (0 : ℚ) < 100 ∧ (0 : ℚ) < 100 ∧
    ((computeDisplayMapping 400 100 100).displayWidth ≤ 400 ∧
     (computeDisplayMapping 400 100 100).displayHeight ≤ 400 ∧
     ((computeDisplayMapping 400 100 100).displayWidth = 400 ∨
      (computeDisplayMapping 400 100 100).displayHeight = 400) ∧
     ((100 : ℚ) = 100 → (computeDisplayMapping 400 100 100).displayWidth = 400 ∧
              (computeDisplayMapping 400 100 100).displayHeight = 400)) :=
  ⟨by norm_num, by norm_num, by norm_num,
   C3_display_mapping_fits 400 100 100 (by norm_num) (by norm_num) (by norm_num)⟩

/-- C4 counterexample: the claim says both gesture starts are discarded on a
degenerate box, but `startResize` has no early return — on the all-zero box
with container 400 it resets the box and still enters the resizing state. -/
theorem C4_resize_not_discarded :
    (startResize 400 Handle.nw
        ⟨⟨0, 0, 0, 0⟩, false, false, none, ⟨0, 0, 0, 0⟩⟩).isResizing = true ∧
    (startResize 400 Handle.nw
        ⟨⟨0, 0, 0, 0⟩, false, false, none, ⟨0, 0, 0, 0⟩⟩).cropBox =
      guardResetBox 400 := by
  constructor
  · rfl
  · simp only [startResize]
    norm_num

/-- C4 (amended): on a gesture start with a box of non-positive width or
height, `startDrag` resets the box to the default centered 30% square and
discards the drag (`isDragging` is not set), while `startResize` resets the
box the same way but proceeds: it enters the resizing state with the reset
box as its snapshot. -/
theorem C4_degenerate_guard (cs : ℚ) (handle : Handle) (s : GestureState)
    (hdeg : s.cropBox.width ≤ 0 ∨ s.cropBox.height ≤ 0) :
    (startDrag cs s).cropBox = guardResetBox cs ∧
    (startDrag cs s).isDragging = s.isDragging ∧
    (startResize cs handle s).cropBox = guardResetBox cs ∧
    (startResize cs handle s).isResizing = true ∧
    (startResize cs handle s).initialCropBox = guardResetBox cs := by
  simp [startDrag, startResize, if_pos hdeg]

/-- C4 witness: the guard theorem instantiated at container 200, handle `se`
and a box of width −5. -/
theorem C4_degenerate_guard_witness :
    ((⟨⟨10, 10, -5, 60⟩, false, false, none, ⟨0, 0, 0, 0⟩⟩ :
        GestureState).cropBox.width ≤ 0 ∨
     (⟨⟨10, 10, -5, 60⟩, false, false, none, ⟨0, 0, 0, 0⟩⟩ :
        GestureState).cropBox.height ≤ 0) ∧
    ((startDrag 200 ⟨⟨10, 10, -5, 60⟩, false, false, none, ⟨0, 0, 0, 0⟩⟩).cropBox =
        guardResetBox 200 ∧
     (startDrag 200 ⟨⟨10, 10, -5, 60⟩, false, false, none, ⟨0, 0, 0, 0⟩⟩).isDragging =
        (⟨⟨10, 10, -5, 60⟩, false, false, none, ⟨0, 0, 0, 0⟩⟩ :
          GestureState).isDragging ∧
     (startResize 200 Handle.se
        ⟨⟨10, 10, -5, 60⟩, false, false, none, ⟨0, 0, 0, 0⟩⟩).cropBox =
        guardResetBox 200 ∧
     (startResize 200 Handle.se
        ⟨⟨10, 10, -5, 60⟩, false, false, none, ⟨0, 0, 0, 0⟩⟩).isResizing = true ∧
     (startResize 200 Handle.se
        ⟨⟨10, 10, -5, 60⟩, false, false, none, ⟨0, 0, 0, 0⟩⟩).initialCropBox =
        guardResetBox 200) :=
  ⟨Or.inl (by norm_num),
   C4_degenerate_guard 200 Handle.se
     ⟨⟨10, 10, -5, 60⟩, false, false, none, ⟨0, 0, 0, 0⟩⟩ (Or.inl (by norm_num))⟩

/-- C7: starting a drag on the all-zero crop box with container side 400
resets the box to the centered square `{x:140, y:140, width:120, height:120}`
(30% of 400) and aborts the drag: the whole gesture state is unchanged except
for the reset box, so `isDragging` stays false. -/
theorem C7_self_heal_scenario :
    startDrag 400 ⟨⟨0, 0, 0, 0⟩, false, false, none, ⟨0, 0, 0, 0⟩⟩ =
      ⟨⟨140, 140, 120, 120⟩, false, false, none, ⟨0, 0, 0, 0⟩⟩ := by
  simp only [startDrag, guardResetBox, minSize]
  norm_num

/-- C5 counterexample: a NaN width is not clamped into range — replaying
`constrainCropBox` with JS NaN semantics on `{x:0, y:0, width:NaN, height:100}`
and container 400 leaves both the width and the x of the result NaN
(`Math.max`/`Math.min` propagate NaN into the position clamp as well). -/
theorem C5_nan_propagates :
    (constrainCropBoxJS 400 ⟨some 0, some 0, none, some 100⟩).width = none ∧
    (constrainCropBoxJS 400 ⟨some 0, some 0, none, some 100⟩).x = none :=
  ⟨rfl, rfl⟩

/-- C5 (amended): on every input box whose four fields are numbers (no NaN),
`constrainCropBox` under JS semantics agrees with the rational model and
returns a box with no NaN field and non-negative (indeed ≥ `minSize`) width
and height; NaN fields, however, propagate to the output instead of being
clamped. -/
theorem C5_no_nan_when_input_numeric (cs : ℚ) (b : CropBox) :
    constrainCropBoxJS cs (JSCropBox.ofCropBox b) =
      JSCropBox.ofCropBox (constrainCropBox cs b) ∧
    (∃ w, (constrainCropBoxJS cs (JSCropBox.ofCropBox b)).width = some w ∧
          0 ≤ w) ∧
    (∃ h, (constrainCropBoxJS cs (JSCropBox.ofCropBox b)).height = some h ∧
          0 ≤ h) := by
  refine ⟨rfl, ⟨max minSize (min cs b.width), rfl, ?_⟩,
          ⟨max minSize (min cs b.height), rfl, ?_⟩⟩
  · exact le_trans (by norm_num [minSize]) (le_max_left _ _)
  · exact le_trans (by norm_num [minSize]) (le_max_left _ _)

/-- C6 counterexample: after uploading a square 100 × 100 image into a
container of side 400, `handleFileUpload` commits `x = offsetX + 3` (its
margin is 3, not 2), so the committed x differs from the claimed
`offsetX + 2`. -/
theorem C6_upload_margin_is_three :
    (uploadResetCropBox 400 100 100).x ≠
      (computeDisplayMapping 400 100 100).offsetX + 2 := by
  norm_num [uploadResetCropBox, computeDisplayMapping]

/-- C6 (amended): of the three crop-box reset sites, only the post-crop reset
(`setCropBoxToFullImage`) commits exactly the displayed image rectangle shrunk
by 2 display px per side; the upload reset (`handleFileUpload`) uses a margin
of 3 px per side with no flooring, and `adjustCropBoxToImage` uses 2 px per
side but floors x and y at 0 and width and height at `minSize`. -/
theorem C6_reset_margins (cs w h : ℚ) :
    setCropBoxToFullImage cs w h =
      cropResetSpec (computeDisplayMapping cs w h) 2 ∧
    uploadResetCropBox cs w h =
      cropResetSpec (computeDisplayMapping cs w h) 3 ∧
    adjustCropBoxToImage cs w h =
      { x := max 0 (cropResetSpec (computeDisplayMapping cs w h) 2).x,
        y := max 0 (cropResetSpec (computeDisplayMapping cs w h) 2).y,
        width := max minSize (cropResetSpec (computeDisplayMapping cs w h) 2).width,
        height := max minSize (cropResetSpec (computeDisplayMapping cs w h) 2).height } :=
  ⟨rfl, rfl, rfl⟩

/-- C9: a drag move whose pre-move box already satisfies
`minSize ≤ width ≤ containerSize` and `minSize ≤ height ≤ containerSize`
commits a box of identical width and height, with x and y set to
`pointer - dragStartPos` clamped into `[0, containerSize - width]` and
`[0, containerSize - height]`. -/
theorem C9_drag_preserves_size (cs ax ay px py : ℚ) (b : CropBox)
    (hw1 : minSize ≤ b.width) (hw2 : b.width ≤ cs)
    (hh1 : minSize ≤ b.height) (hh2 : b.height ≤ cs) :
    handleDrag cs (ax, ay) (px, py) b =
      { x := max 0 (min (cs - b.width) (px - ax)),
        y := max 0 (min (cs - b.height) (py - ay)),
        width := b.width, height := b.height } := by
  simp only [handleDrag, constrainCropBox_eq]
  have hww : max minSize (min cs b.width) = b.width := by
    rw [min_eq_right hw2, max_eq_right hw1]
  have hhh : max minSize (min cs b.height) = b.height := by
    rw [min_eq_right hh2, max_eq_right hh1]
  rw [hww, hhh, max_eq_right (sub_nonneg.mpr hw2), max_eq_right (sub_nonneg.mpr hh2)]

/-- C9 witness: the drag theorem instantiated at container 400, box
`{x:10, y:20, width:100, height:80}`, anchor (5,5) and pointer (1000,−50);
the committed box is `{x:300, y:0, width:100, height:80}`. -/
theorem C9_drag_preserves_size_witness :
    (minSize ≤ (100 : ℚ) ∧ (100 : ℚ) ≤ 400 ∧
     minSize ≤ (80 : ℚ) ∧ (80 : ℚ) ≤ 400) ∧
    handleDrag 400 (5, 5) (1000, -50) ⟨10, 20, 100, 80⟩ =
      { x := max 0 (min ((400 : ℚ) - 100) (1000 - 5)),
        y := max 0 (min ((400 : ℚ) - 80) (-50 - 5)),
        width := 100, height := 80 } :=
  ⟨⟨by norm_num [minSize], by norm_num, by norm_num [minSize], by norm_num⟩,
   C9_drag_preserves_size 400 5 5 1000 (-50) ⟨10, 20, 100, 80⟩
     (by norm_num [minSize]) (by norm_num) (by norm_num [minSize]) (by norm_num)⟩

/-- C10: the store action `updateCropBox` merges its partial argument over
the current box — every absent field keeps its previous value and every
present field is stored verbatim — and it validates nothing: in the concrete
instance a negative width and a NaN height are committed unchanged while the
absent x and y keep their previous values. -/
theorem C10_update_merges_verbatim :
    (∀ (cur : JSCropBox) (p : CropBoxUpdate),
        (updateCropBox cur p).x = p.x.getD cur.x ∧
        (updateCropBox cur p).y = p.y.getD cur.y ∧
        (updateCropBox cur p).width = p.width.getD cur.width ∧
        (updateCropBox cur p).height = p.height.getD cur.height) ∧
    updateCropBox ⟨some 50, some 50, some 300, some 300⟩
        ⟨none, none, some (some (-5)), some none⟩ =
      ⟨some 50, some 50, some (-5), none⟩ :=
  ⟨fun cur p => ⟨rfl, rfl, rfl, rfl⟩, rfl⟩

end PicCut
